import Mathlib

/-!
Shallow embedding of the spatial quantization codec (QParams2d/3d, QPoint2d/3d,
QPoint2dList/3dList and the scalar Quantization helpers).  JavaScript `number`
values are modelled as exact rationals (ℚ); `Math.floor` is `Int.floor`;
`Uint16Array` element conversion is modelled by `toUint16` (truncate toward
zero, then reduce mod 2^16).  Methods that mutate `this` are modelled as
functions returning the updated value.
-/

namespace Quantization

def rangeScale : ℚ := 65535

/-- `computeScale(extent)`: `0.0 === extent ? extent : rangeScale / extent`. -/
def computeScale (extent : ℚ) : ℚ := if extent = 0 then extent else rangeScale / extent

/-- `isInRange(qpos)`: `qpos >= 0.0 && qpos < rangeScale + 1.0`. -/
def isInRange (qpos : ℚ) : Bool := decide (qpos ≥ 0) && decide (qpos < rangeScale + 1)

/-- `quantize(pos, origin, scale)`: `Math.floor(Math.max(0.0, Math.min(rangeScale, 0.5 + (pos - origin) * scale)))`. -/
def quantize (pos origin scale : ℚ) : ℚ :=
  ((⌊max 0 (min rangeScale (1/2 + (pos - origin) * scale))⌋ : ℤ) : ℚ)

/-- `isQuantizable(pos, origin, scale)`: `isInRange(quantize(pos, origin, scale))`. -/
def isQuantizable (pos origin scale : ℚ) : Bool := isInRange (quantize pos origin scale)

/-- `unquantize(qpos, origin, scale)`: `0.0 === scale ? origin : origin + qpos / scale`. -/
def unquantize (qpos origin scale : ℚ) : ℚ :=
  if scale = 0 then origin else origin + qpos / scale

/-- `isQuantized(qpos)`: `isInRange(qpos) && qpos === Math.floor(qpos)`. -/
def isQuantized (qpos : ℚ) : Bool := isInRange qpos && decide (qpos = ((⌊qpos⌋ : ℤ) : ℚ))

end Quantization

/-- Modelled from the spec: `clamp(lo, hi, x)` clamps `x` into `[lo, hi]`.  Used
only to state the spec-side formula of the quantize refinement claim. -/
def clampSpec (lo hi x : ℚ) : ℚ := max lo (min hi x)

/-- Modelled from the spec: `quantize` as the spec words it,
`floor(clamp(0, 65535, 0.5 + (pos - origin) * scale))`. -/
def quantizeSpec (pos origin scale : ℚ) : ℚ :=
  ((⌊clampSpec 0 65535 (1/2 + (pos - origin) * scale)⌋ : ℤ) : ℚ)

/-- `Point2d` from geometry-core: two float components. -/
structure Point2d where
  x : ℚ
  y : ℚ
deriving DecidableEq, Repr

/-- `Point3d` from geometry-core: three float components. -/
structure Point3d where
  x : ℚ
  y : ℚ
  z : ℚ
deriving DecidableEq, Repr

/-- `Range2d` from geometry-core: two corner points plus the null flag
consulted by `setFromRange`. -/
structure Range2d where
  low : Point2d
  high : Point2d
  isNull : Bool
deriving DecidableEq, Repr

/-- `Range3d` from geometry-core. -/
structure Range3d where
  low : Point3d
  high : Point3d
  isNull : Bool
deriving DecidableEq, Repr

/-- `QParams2d`: origin point and per-axis scale. -/
structure QParams2d where
  origin : Point2d
  scale : Point2d
deriving DecidableEq, Repr

/-- Private constructor default: all four components zero. -/
def QParams2d.zero : QParams2d := ⟨⟨0, 0⟩, ⟨0, 0⟩⟩

/-- `QParams2d.setFrom(ox, oy, sx, sy)` — overwrites every field of `this`. -/
def QParams2d.setFrom (_self : QParams2d) (ox oy sx sy : ℚ) : QParams2d :=
  ⟨⟨ox, oy⟩, ⟨sx, sy⟩⟩

/-- `QParams2d.copyFrom(src)`. -/
def QParams2d.copyFrom (self : QParams2d) (src : QParams2d) : QParams2d :=
  self.setFrom src.origin.x src.origin.y src.scale.x src.scale.y

/-- `QParams2d.clone(out?)`: fresh value with the same components. -/
def QParams2d.clone (self : QParams2d) : QParams2d := QParams2d.copyFrom QParams2d.zero self

/-- `QParams2d.setFromRange(range)`. -/
def QParams2d.setFromRange (self : QParams2d) (range : Range2d) : QParams2d :=
  if range.isNull = false then
    self.setFrom range.low.x range.low.y
      (Quantization.computeScale (range.high.x - range.low.x))
      (Quantization.computeScale (range.high.y - range.low.y))
  else
    ⟨⟨0, 0⟩, ⟨0, 0⟩⟩

/-- `QParams2d.fromRange(range, out?)`. -/
def QParams2d.fromRange (range : Range2d) : QParams2d :=
  QParams2d.setFromRange QParams2d.zero range

/-- `QParams3d`. -/
structure QParams3d where
  origin : Point3d
  scale : Point3d
deriving DecidableEq, Repr

def QParams3d.zero : QParams3d := ⟨⟨0, 0, 0⟩, ⟨0, 0, 0⟩⟩

/-- `QParams3d.setFrom(ox, oy, oz, sx, sy, sz)`. -/
def QParams3d.setFrom (_self : QParams3d) (ox oy oz sx sy sz : ℚ) : QParams3d :=
  ⟨⟨ox, oy, oz⟩, ⟨sx, sy, sz⟩⟩

/-- `QParams3d.copyFrom(src)`. -/
def QParams3d.copyFrom (self : QParams3d) (src : QParams3d) : QParams3d :=
  self.setFrom src.origin.x src.origin.y src.origin.z src.scale.x src.scale.y src.scale.z

/-- `QParams3d.clone(out?)`. -/
def QParams3d.clone (self : QParams3d) : QParams3d := QParams3d.copyFrom QParams3d.zero self

/-- `QParams3d.setFromRange(range)`. -/
def QParams3d.setFromRange (self : QParams3d) (range : Range3d) : QParams3d :=
  if range.isNull = false then
    self.setFrom range.low.x range.low.y range.low.z
      (Quantization.computeScale (range.high.x - range.low.x))
      (Quantization.computeScale (range.high.y - range.low.y))
      (Quantization.computeScale (range.high.z - range.low.z))
  else
    ⟨⟨0, 0, 0⟩, ⟨0, 0, 0⟩⟩

/-- `QParams3d.fromRange(range, out?)`. -/
def QParams3d.fromRange (range : Range3d) : QParams3d :=
  QParams3d.setFromRange QParams3d.zero range

/-- `QPoint2d`: two quantized components. -/
structure QPoint2d where
  x : ℚ
  y : ℚ
deriving DecidableEq, Repr

/-- Private constructor: components start at 0. -/
def QPoint2d.zero : QPoint2d := ⟨0, 0⟩

/-- The `x` setter's assignment (`this._x = x`); the accompanying
`assert(Quantization.isQuantized(x))` fires exactly when
`Quantization.isQuantized x = false`. -/
def QPoint2d.setX (self : QPoint2d) (v : ℚ) : QPoint2d := ⟨v, self.y⟩

/-- The `y` setter's assignment. -/
def QPoint2d.setY (self : QPoint2d) (v : ℚ) : QPoint2d := ⟨self.x, v⟩

/-- The per-component invariant guarded by the setters' assertions: each
component is quantized (integral and in range). -/
def QPoint2d.Valid (p : QPoint2d) : Prop :=
  Quantization.isQuantized p.x = true ∧ Quantization.isQuantized p.y = true

/-- `QPoint2d.init(pos, params)`: quantize both axes through the setters. -/
def QPoint2d.init (self : QPoint2d) (pos : Point2d) (params : QParams2d) : QPoint2d :=
  (self.setX (Quantization.quantize pos.x params.origin.x params.scale.x)).setY
    (Quantization.quantize pos.y params.origin.y params.scale.y)

/-- `QPoint2d.create(pos, params)`. -/
def QPoint2d.create (pos : Point2d) (params : QParams2d) : QPoint2d :=
  QPoint2d.init QPoint2d.zero pos params

/-- `QPoint2d.copyFrom(src)`. -/
def QPoint2d.copyFrom (self : QPoint2d) (src : QPoint2d) : QPoint2d :=
  (self.setX src.x).setY src.y

/-- `QPoint2d.clone(out?)`. -/
def QPoint2d.clone (self : QPoint2d) : QPoint2d := QPoint2d.copyFrom QPoint2d.zero self

/-- `QPoint2d.setFromScalars(x, y)`. -/
def QPoint2d.setFromScalars (self : QPoint2d) (x y : ℚ) : QPoint2d := (self.setX x).setY y

/-- `QPoint2d.fromScalars(x, y)`. -/
def QPoint2d.fromScalars (x y : ℚ) : QPoint2d := QPoint2d.setFromScalars QPoint2d.zero x y

/-- `QPoint2d.unquantize(params, out?)`: both fields of the output point are
overwritten, so the result does not depend on which allocation `out` chose. -/
def QPoint2d.unquantize (self : QPoint2d) (params : QParams2d) (_out : Option Point2d) :
    Point2d :=
  ⟨Quantization.unquantize self.x params.origin.x params.scale.x,
   Quantization.unquantize self.y params.origin.y params.scale.y⟩

/-- `QPoint3d`. -/
structure QPoint3d where
  x : ℚ
  y : ℚ
  z : ℚ
deriving DecidableEq, Repr

def QPoint3d.zero : QPoint3d := ⟨0, 0, 0⟩

def QPoint3d.setX (self : QPoint3d) (v : ℚ) : QPoint3d := ⟨v, self.y, self.z⟩

def QPoint3d.setY (self : QPoint3d) (v : ℚ) : QPoint3d := ⟨self.x, v, self.z⟩

def QPoint3d.setZ (self : QPoint3d) (v : ℚ) : QPoint3d := ⟨self.x, self.y, v⟩

/-- Per-component invariant guarded by the three setters' assertions. -/
def QPoint3d.Valid (p : QPoint3d) : Prop :=
  Quantization.isQuantized p.x = true ∧ Quantization.isQuantized p.y = true ∧
    Quantization.isQuantized p.z = true

/-- `QPoint3d.init(pos, params)`. -/
def QPoint3d.init (self : QPoint3d) (pos : Point3d) (params : QParams3d) : QPoint3d :=
  ((self.setX (Quantization.quantize pos.x params.origin.x params.scale.x)).setY
    (Quantization.quantize pos.y params.origin.y params.scale.y)).setZ
      (Quantization.quantize pos.z params.origin.z params.scale.z)

/-- `QPoint3d.create(pos, params)`. -/
def QPoint3d.create (pos : Point3d) (params : QParams3d) : QPoint3d :=
  QPoint3d.init QPoint3d.zero pos params

/-- `QPoint3d.copyFrom(src)`. -/
def QPoint3d.copyFrom (self : QPoint3d) (src : QPoint3d) : QPoint3d :=
  ((self.setX src.x).setY src.y).setZ src.z

/-- `QPoint3d.clone(out?)`. -/
def QPoint3d.clone (self : QPoint3d) : QPoint3d := QPoint3d.copyFrom QPoint3d.zero self

/-- `QPoint3d.setFromScalars(x, y, z)`. -/
def QPoint3d.setFromScalars (self : QPoint3d) (x y z : ℚ) : QPoint3d :=
  ((self.setX x).setY y).setZ z

/-- `QPoint3d.fromScalars(x, y, z)`. -/
def QPoint3d.fromScalars (x y z : ℚ) : QPoint3d :=
  QPoint3d.setFromScalars QPoint3d.zero x y z

/-- `QPoint3d.unquantize(params, out?)`. -/
def QPoint3d.unquantize (self : QPoint3d) (params : QParams3d) (_out : Option Point3d) :
    Point3d :=
  ⟨Quantization.unquantize self.x params.origin.x params.scale.x,
   Quantization.unquantize self.y params.origin.y params.scale.y,
   Quantization.unquantize self.z params.origin.z params.scale.z⟩

/-- ECMAScript `ToUint16`, applied by `Uint16Array` element assignment:
truncate toward zero, then reduce modulo 2^16 into `[0, 65536)`. -/
def toUint16 (q : ℚ) : ℕ :=
  (((if q ≥ 0 then ⌊q⌋ else -⌊-q⌋) % 65536 : ℤ)).toNat

/-- `QPoint2dList`: an owned params record plus the ordered point array. -/
structure QPoint2dList where
  params : QParams2d
  list : List QPoint2d
deriving DecidableEq, Repr

/-- `new QPoint2dList(params)`: clones the record, starts empty. -/
def QPoint2dList.create (params : QParams2d) : QPoint2dList := ⟨params.clone, []⟩

/-- `QPoint2dList.clear()`. -/
def QPoint2dList.clear (self : QPoint2dList) : QPoint2dList := ⟨self.params, []⟩

/-- `QPoint2dList.reset(params)`. -/
def QPoint2dList.reset (self : QPoint2dList) (params : QParams2d) : QPoint2dList :=
  ⟨self.clear.params.copyFrom params, []⟩

/-- `QPoint2dList.add(pt)`. -/
def QPoint2dList.add (self : QPoint2dList) (pt : Point2d) : QPoint2dList :=
  ⟨self.params, self.list ++ [QPoint2d.create pt self.params]⟩

/-- `QPoint2dList.push(qpt)`. -/
def QPoint2dList.push (self : QPoint2dList) (qpt : QPoint2d) : QPoint2dList :=
  ⟨self.params, self.list ++ [qpt.clone]⟩

/-- `QPoint2dList.length`. -/
def QPoint2dList.length (self : QPoint2dList) : ℕ := self.list.length

/-- `QPoint2dList.unquantize(index, out?)`: the method reads but never writes
`this`, so it is modelled as returning the point together with the (unchanged)
receiver.  The `assert(index < this.length)` fires exactly when
`self.length ≤ index`; with assertions disabled the `else` branch returns
`out` unchanged, or a freshly constructed zero point. -/
def QPoint2dList.unquantize (self : QPoint2dList) (index : ℕ) (out : Option Point2d) :
    Point2d × QPoint2dList :=
  if h : index < self.list.length then
    ((self.list.get ⟨index, h⟩).unquantize self.params out, self)
  else
    (out.getD ⟨0, 0⟩, self)

/-- Loop body of `QPoint2dList.requantize`: each slot `i` is replaced by
`this._list[i].init(this._list[i].unquantize(oldParams), params)`; the slots
are independent, so the in-place loop is structural recursion over the list. -/
def requantizeList2 (params oldParams : QParams2d) : List QPoint2d → List QPoint2d
  | [] => []
  | q :: rest =>
      QPoint2d.init q (QPoint2d.unquantize q oldParams none) params ::
        requantizeList2 params oldParams rest

/-- `QPoint2dList.requantize(params)`: rewrite every slot, then
`this.params.copyFrom(params)`. -/
def QPoint2dList.requantize (self : QPoint2dList) (params : QParams2d) : QPoint2dList :=
  ⟨self.params.copyFrom params, requantizeList2 params self.params self.list⟩

/-- Loop body of `QPoint2dList.toTypedArray`: `array[i*2] = pt.x;
array[i*2+1] = pt.y` for each point in order. -/
def typedArray2 : List QPoint2d → List ℕ
  | [] => []
  | p :: rest => toUint16 p.x :: toUint16 p.y :: typedArray2 rest

/-- `QPoint2dList.toTypedArray()`. -/
def QPoint2dList.toTypedArray (self : QPoint2dList) : List ℕ := typedArray2 self.list

/-- `QPoint3dList`. -/
structure QPoint3dList where
  params : QParams3d
  list : List QPoint3d
deriving DecidableEq, Repr

def QPoint3dList.create (params : QParams3d) : QPoint3dList := ⟨params.clone, []⟩

def QPoint3dList.clear (self : QPoint3dList) : QPoint3dList := ⟨self.params, []⟩

def QPoint3dList.reset (self : QPoint3dList) (params : QParams3d) : QPoint3dList :=
  ⟨self.clear.params.copyFrom params, []⟩

def QPoint3dList.add (self : QPoint3dList) (pt : Point3d) : QPoint3dList :=
  ⟨self.params, self.list ++ [QPoint3d.create pt self.params]⟩

def QPoint3dList.push (self : QPoint3dList) (qpt : QPoint3d) : QPoint3dList :=
  ⟨self.params, self.list ++ [qpt.clone]⟩

def QPoint3dList.length (self : QPoint3dList) : ℕ := self.list.length

/-- `QPoint3dList.unquantize(index, out?)`, modelled like the 2d variant. -/
def QPoint3dList.unquantize (self : QPoint3dList) (index : ℕ) (out : Option Point3d) :
    Point3d × QPoint3dList :=
  if h : index < self.list.length then
    ((self.list.get ⟨index, h⟩).unquantize self.params out, self)
  else
    (out.getD ⟨0, 0, 0⟩, self)

/-- Loop body of `QPoint3dList.requantize`. -/
def requantizeList3 (params oldParams : QParams3d) : List QPoint3d → List QPoint3d
  | [] => []
  | q :: rest =>
      QPoint3d.init q (QPoint3d.unquantize q oldParams none) params ::
        requantizeList3 params oldParams rest

/-- `QPoint3dList.requantize(params)`. -/
def QPoint3dList.requantize (self : QPoint3dList) (params : QParams3d) : QPoint3dList :=
  ⟨self.params.copyFrom params, requantizeList3 params self.params self.list⟩

/-- Loop body of `QPoint3dList.toTypedArray`: `array[i*3] = pt.x;
array[i*3+1] = pt.y; array[i*3+2] = pt.z`. -/
def typedArray3 : List QPoint3d → List ℕ
  | [] => []
  | p :: rest => toUint16 p.x :: toUint16 p.y :: toUint16 p.z :: typedArray3 rest

/-- `QPoint3dList.toTypedArray()`. -/
def QPoint3dList.toTypedArray (self : QPoint3dList) : List ℕ := typedArray3 self.list

/-! ### Helper lemmas about the scalar quantization functions -/

lemma isInRange_iff (q : ℚ) : Quantization.isInRange q = true ↔ 0 ≤ q ∧ q < 65536 := by
  simp only [Quantization.isInRange, Quantization.rangeScale, Bool.and_eq_true,
    decide_eq_true_eq, ge_iff_le]
  norm_num

lemma isQuantized_iff (q : ℚ) :
    Quantization.isQuantized q = true ↔ ∃ m : ℤ, q = (m : ℚ) ∧ 0 ≤ m ∧ m ≤ 65535 := by
  simp only [Quantization.isQuantized, Bool.and_eq_true, decide_eq_true_eq]
  constructor
  · rintro ⟨hin, heq⟩
    rw [isInRange_iff] at hin
    refine ⟨⌊q⌋, heq, Int.le_floor.mpr (by exact_mod_cast hin.1), ?_⟩
    have h2 : ((⌊q⌋ : ℤ) : ℚ) < 65536 := by rw [← heq]; exact hin.2
    have h3 : (⌊q⌋ : ℤ) < 65536 := by exact_mod_cast h2
    omega
  · rintro ⟨m, rfl, h0, h1⟩
    refine ⟨?_, by rw [Int.floor_intCast]⟩
    rw [isInRange_iff]
    constructor
    · exact_mod_cast h0
    · exact_mod_cast lt_of_le_of_lt h1 (by norm_num)

lemma quantize_floor_bounds (pos origin scale : ℚ) :
    0 ≤ ⌊max 0 (min Quantization.rangeScale (1/2 + (pos - origin) * scale))⌋ ∧
      ⌊max 0 (min Quantization.rangeScale (1/2 + (pos - origin) * scale))⌋ ≤ 65535 := by
  constructor
  · exact Int.le_floor.mpr (by exact_mod_cast le_max_left 0 _)
  · have hle : max 0 (min Quantization.rangeScale (1/2 + (pos - origin) * scale)) ≤
        Quantization.rangeScale := by
      apply max_le
      · norm_num [Quantization.rangeScale]
      · exact min_le_left _ _
    have := Int.floor_le_floor hle
    simpa [Quantization.rangeScale] using this

/-- The result of `quantize` always satisfies `isQuantized`, so the component
setters' assertions cannot fire on values produced by `quantize`. -/
lemma isQuantized_quantize (pos origin scale : ℚ) :
    Quantization.isQuantized (Quantization.quantize pos origin scale) = true := by
  rw [isQuantized_iff]
  exact ⟨_, rfl, quantize_floor_bounds pos origin scale⟩

/-- For a nonzero scale, re-quantizing the unquantized value of a quantized
component reproduces the component exactly. -/
lemma quantize_unquantize_eq (q origin scale : ℚ) (hs : scale ≠ 0)
    (hq : Quantization.isQuantized q = true) :
    Quantization.quantize (Quantization.unquantize q origin scale) origin scale = q := by
  obtain ⟨m, rfl, h0, h1⟩ := (isQuantized_iff q).mp hq
  unfold Quantization.unquantize Quantization.quantize
  rw [if_neg hs]
  have hcancel : (origin + (m : ℚ) / scale - origin) * scale = (m : ℚ) := by
    field_simp
    ring
  rw [hcancel]
  rcases eq_or_lt_of_le h1 with heq | hlt
  · subst heq
    have hmin : min Quantization.rangeScale (1/2 + (65535 : ℚ)) = Quantization.rangeScale := by
      apply min_eq_left
      norm_num [Quantization.rangeScale]
    norm_num [hmin, Quantization.rangeScale]
  · have hle : 1/2 + (m : ℚ) ≤ Quantization.rangeScale := by
      have : (m : ℚ) ≤ 65534 := by exact_mod_cast (by omega : m ≤ 65534)
      rw [Quantization.rangeScale]
      linarith
    rw [min_eq_right hle, max_eq_right (by positivity)]
    have hfl : ⌊1/2 + (m : ℚ)⌋ = m := by
      rw [Int.floor_eq_iff]
      constructor
      · linarith
      · linarith
    rw [add_comm] at hfl ⊢
    rw [hfl]

/-- One-grid-cell error bound for the scalar round trip, for any positive
scale and any `pos` with `(pos - origin) * scale ≤ 65535`. -/
lemma round_trip_err (origin scale pos : ℚ) (hs : 0 < scale) (h1 : origin ≤ pos)
    (h2 : (pos - origin) * scale ≤ 65535) :
    |Quantization.unquantize (Quantization.quantize pos origin scale) origin scale - pos| ≤
      1 / scale := by
  have hsne : scale ≠ 0 := ne_of_gt hs
  have ht0 : 0 ≤ (pos - origin) * scale := mul_nonneg (by linarith) hs.le
  have key : |Quantization.quantize pos origin scale - (pos - origin) * scale| ≤ 1 := by
    unfold Quantization.quantize
    by_cases hc : 1/2 + (pos - origin) * scale ≤ Quantization.rangeScale
    · rw [min_eq_right hc, max_eq_right (by linarith)]
      have hf1 := Int.floor_le (1/2 + (pos - origin) * scale)
      have hf2 := Int.lt_floor_add_one (1/2 + (pos - origin) * scale)
      rw [abs_le]
      exact ⟨by linarith, by linarith⟩
    · push_neg at hc
      rw [min_eq_left hc.le, max_eq_right (by norm_num [Quantization.rangeScale])]
      rw [Quantization.rangeScale] at hc ⊢
      norm_num
      rw [abs_le]
      exact ⟨by linarith, by linarith⟩
  have hrw : Quantization.unquantize (Quantization.quantize pos origin scale) origin scale -
      pos = (Quantization.quantize pos origin scale - (pos - origin) * scale) / scale := by
    unfold Quantization.unquantize
    rw [if_neg hsne]
    field_simp
    ring
  rw [hrw, abs_div, abs_of_pos hs]
  gcongr

/-- Scales produced by `computeScale` on a nonnegative extent are
nonnegative. -/
lemma computeScale_nonneg (extent : ℚ) (h : 0 ≤ extent) :
    0 ≤ Quantization.computeScale extent := by
  unfold Quantization.computeScale
  split
  · exact h
  · rw [Quantization.rangeScale]
    exact div_nonneg (by norm_num) h

lemma computeScale_pos (extent : ℚ) (h : 0 < extent) :
    0 < Quantization.computeScale extent := by
  unfold Quantization.computeScale
  rw [if_neg (ne_of_gt h)]
  rw [Quantization.rangeScale]
  positivity

/-- Quantizing below the record origin with a nonnegative scale clamps to 0. -/
lemma quantize_below (low high pos : ℚ) (hlh : low ≤ high) (hp : pos < low) :
    Quantization.quantize pos low (Quantization.computeScale (high - low)) = 0 := by
  have hs0 : 0 ≤ Quantization.computeScale (high - low) :=
    computeScale_nonneg _ (by linarith)
  have hts : (pos - low) * Quantization.computeScale (high - low) ≤ 0 :=
    mul_nonpos_of_nonpos_of_nonneg (by linarith) hs0
  unfold Quantization.quantize
  have hmin : min Quantization.rangeScale
      (1/2 + (pos - low) * Quantization.computeScale (high - low)) =
      1/2 + (pos - low) * Quantization.computeScale (high - low) := by
    apply min_eq_right
    rw [Quantization.rangeScale]
    linarith
  rw [hmin]
  have hfl : ⌊max 0 (1/2 + (pos - low) * Quantization.computeScale (high - low))⌋ = 0 := by
    rw [Int.floor_eq_zero_iff]
    refine Set.mem_Ico.mpr ⟨le_max_left _ _, ?_⟩
    apply max_lt
    · norm_num
    · linarith
  rw [hfl]
  norm_num

/-- Quantizing above the record high with a positive extent clamps to
65535. -/
lemma quantize_above (low high pos : ℚ) (hlh : low < high) (hp : high < pos) :
    Quantization.quantize pos low (Quantization.computeScale (high - low)) = 65535 := by
  have hext : 0 < high - low := by linarith
  have hs : Quantization.computeScale (high - low) = 65535 / (high - low) := by
    unfold Quantization.computeScale
    rw [if_neg (ne_of_gt hext), Quantization.rangeScale]
  have hspos : 0 < Quantization.computeScale (high - low) := computeScale_pos _ hext
  have hhigh : (high - low) * Quantization.computeScale (high - low) = 65535 := by
    rw [hs]
    field_simp
  have ht : 65535 < (pos - low) * Quantization.computeScale (high - low) := by
    calc (65535 : ℚ) = (high - low) * Quantization.computeScale (high - low) := hhigh.symm
    _ < (pos - low) * Quantization.computeScale (high - low) :=
        mul_lt_mul_of_pos_right (by linarith) hspos
  unfold Quantization.quantize
  rw [min_eq_left (by rw [Quantization.rangeScale]; linarith),
    max_eq_right (by norm_num [Quantization.rangeScale]), Quantization.rangeScale]
  norm_num

/-! ### Structural helper lemmas -/

lemma qparams2_copyFrom_eq (self src : QParams2d) : self.copyFrom src = src := by
  cases src with
  | mk o s => cases o; cases s; rfl

lemma qparams3_copyFrom_eq (self src : QParams3d) : self.copyFrom src = src := by
  cases src with
  | mk o s => cases o; cases s; rfl

lemma qparams2_clone_eq (p : QParams2d) : p.clone = p := qparams2_copyFrom_eq _ _

lemma qparams3_clone_eq (p : QParams3d) : p.clone = p := qparams3_copyFrom_eq _ _

lemma qpoint2_clone_eq (p : QPoint2d) : p.clone = p := by
  cases p; rfl

lemma qpoint3_clone_eq (p : QPoint3d) : p.clone = p := by
  cases p; rfl

lemma toUint16_lt (q : ℚ) : toUint16 q < 65536 := by
  unfold toUint16
  have h1 := Int.emod_nonneg (if q ≥ 0 then ⌊q⌋ else -⌊-q⌋) (by norm_num : (65536:ℤ) ≠ 0)
  have h2 := Int.emod_lt_of_pos (if q ≥ 0 then ⌊q⌋ else -⌊-q⌋) (by norm_num : (0:ℤ) < 65536)
  omega

lemma toUint16_cast_eq (q : ℚ) (h : Quantization.isQuantized q = true) :
    (toUint16 q : ℚ) = q := by
  obtain ⟨m, rfl, h0, h1⟩ := (isQuantized_iff q).mp h
  unfold toUint16
  rw [if_pos (by exact_mod_cast h0), Int.floor_intCast, Int.emod_eq_of_lt h0 (by omega)]
  exact_mod_cast congrArg (fun z : ℤ => (z : ℚ)) (Int.toNat_of_nonneg h0)

lemma typedArray2_length (l : List QPoint2d) : (typedArray2 l).length = l.length * 2 := by
  induction l with
  | nil => simp [typedArray2]
  | cons hd tl ih => simp [typedArray2, ih]; ring

lemma typedArray3_length (l : List QPoint3d) : (typedArray3 l).length = l.length * 3 := by
  induction l with
  | nil => simp [typedArray3]
  | cons hd tl ih => simp [typedArray3, ih]; ring

lemma typedArray2_mem_lt (l : List QPoint2d) : ∀ u ∈ typedArray2 l, u < 65536 := by
  induction l with
  | nil => simp [typedArray2]
  | cons hd tl ih =>
      intro u hu
      simp only [typedArray2, List.mem_cons] at hu
      rcases hu with rfl | rfl | hu
      · exact toUint16_lt _
      · exact toUint16_lt _
      · exact ih u hu

lemma typedArray3_mem_lt (l : List QPoint3d) : ∀ u ∈ typedArray3 l, u < 65536 := by
  induction l with
  | nil => simp [typedArray3]
  | cons hd tl ih =>
      intro u hu
      simp only [typedArray3, List.mem_cons] at hu
      rcases hu with rfl | rfl | rfl | hu
      · exact toUint16_lt _
      · exact toUint16_lt _
      · exact toUint16_lt _
      · exact ih u hu

lemma typedArray2_get (l : List QPoint2d) (i : ℕ) (p : QPoint2d) (h : l.get? i = some p) :
    (typedArray2 l).get? (i * 2) = some (toUint16 p.x) ∧
      (typedArray2 l).get? (i * 2 + 1) = some (toUint16 p.y) := by
  induction l generalizing i with
  | nil => simp at h
  | cons hd tl ih =>
      cases i with
      | zero =>
          simp only [List.get?_cons_zero, Option.some.injEq] at h
          subst h
          exact ⟨rfl, rfl⟩
      | succ n =>
          simp only [List.get?_cons_succ] at h
          have e2 : (n + 1) * 2 + 1 = ((n * 2 + 1) + 1) + 1 := by ring
          have e1 : (n + 1) * 2 = (n * 2 + 1) + 1 := by ring
          rw [e2, e1]
          simp only [typedArray2, List.get?_cons_succ]
          exact ih n h

lemma typedArray3_get (l : List QPoint3d) (i : ℕ) (p : QPoint3d) (h : l.get? i = some p) :
    (typedArray3 l).get? (i * 3) = some (toUint16 p.x) ∧
      (typedArray3 l).get? (i * 3 + 1) = some (toUint16 p.y) ∧
      (typedArray3 l).get? (i * 3 + 2) = some (toUint16 p.z) := by
  induction l generalizing i with
  | nil => simp at h
  | cons hd tl ih =>
      cases i with
      | zero =>
          simp only [List.get?_cons_zero, Option.some.injEq] at h
          subst h
          exact ⟨rfl, rfl, rfl⟩
      | succ n =>
          simp only [List.get?_cons_succ] at h
          have e3 : (n + 1) * 3 + 2 = (((n * 3 + 2) + 1) + 1) + 1 := by ring
          have e2 : (n + 1) * 3 + 1 = (((n * 3 + 1) + 1) + 1) + 1 := by ring
          have e1 : (n + 1) * 3 = ((n * 3 + 1) + 1) + 1 := by ring
          rw [e3, e2, e1]
          simp only [typedArray3, List.get?_cons_succ]
          exact ih n h

lemma requantizeList2_length (params oldParams : QParams2d) (l : List QPoint2d) :
    (requantizeList2 params oldParams l).length = l.length := by
  induction l with
  | nil => rfl
  | cons hd tl ih => simp [requantizeList2, ih]

lemma requantizeList3_length (params oldParams : QParams3d) (l : List QPoint3d) :
    (requantizeList3 params oldParams l).length = l.length := by
  induction l with
  | nil => rfl
  | cons hd tl ih => simp [requantizeList3, ih]

lemma requantizeList2_get (params oldParams : QParams2d) (l : List QPoint2d) (i : ℕ) :
    (requantizeList2 params oldParams l).get? i =
      (l.get? i).map (fun q => QPoint2d.init q (q.unquantize oldParams none) params) := by
  induction l generalizing i with
  | nil => simp [requantizeList2]
  | cons hd tl ih =>
      cases i with
      | zero => simp [requantizeList2]
      | succ n => simpa [requantizeList2] using ih n

lemma requantizeList3_get (params oldParams : QParams3d) (l : List QPoint3d) (i : ℕ) :
    (requantizeList3 params oldParams l).get? i =
      (l.get? i).map (fun q => QPoint3d.init q (q.unquantize oldParams none) params) := by
  induction l generalizing i with
  | nil => simp [requantizeList3]
  | cons hd tl ih =>
      cases i with
      | zero => simp [requantizeList3]
      | succ n => simpa [requantizeList3] using ih n

/-- With a nonzero per-axis scale, re-basing a valid quantized 2d point onto
the same record reproduces it exactly. -/
lemma requantize_point2_eq (q : QPoint2d) (params : QParams2d)
    (hx : params.scale.x ≠ 0) (hy : params.scale.y ≠ 0) (hq : q.Valid) :
    QPoint2d.init q (q.unquantize params none) params = q := by
  obtain ⟨hqx, hqy⟩ := hq
  cases q with
  | mk qx qy =>
      show QPoint2d.mk
        (Quantization.quantize (Quantization.unquantize qx params.origin.x params.scale.x)
          params.origin.x params.scale.x)
        (Quantization.quantize (Quantization.unquantize qy params.origin.y params.scale.y)
          params.origin.y params.scale.y) = QPoint2d.mk qx qy
      rw [quantize_unquantize_eq qx _ _ hx hqx, quantize_unquantize_eq qy _ _ hy hqy]

/-- 3d analogue of `requantize_point2_eq`. -/
lemma requantize_point3_eq (q : QPoint3d) (params : QParams3d)
    (hx : params.scale.x ≠ 0) (hy : params.scale.y ≠ 0) (hz : params.scale.z ≠ 0)
    (hq : q.Valid) :
    QPoint3d.init q (q.unquantize params none) params = q := by
  obtain ⟨hqx, hqy, hqz⟩ := hq
  cases q with
  | mk qx qy qz =>
      show QPoint3d.mk
        (Quantization.quantize (Quantization.unquantize qx params.origin.x params.scale.x)
          params.origin.x params.scale.x)
        (Quantization.quantize (Quantization.unquantize qy params.origin.y params.scale.y)
          params.origin.y params.scale.y)
        (Quantization.quantize (Quantization.unquantize qz params.origin.z params.scale.z)
          params.origin.z params.scale.z) = QPoint3d.mk qx qy qz
      rw [quantize_unquantize_eq qx _ _ hx hqx, quantize_unquantize_eq qy _ _ hy hqy,
        quantize_unquantize_eq qz _ _ hz hqz]

lemma requantizeList2_id (params : QParams2d) (hx : params.scale.x ≠ 0)
    (hy : params.scale.y ≠ 0) (l : List QPoint2d) (hval : ∀ q ∈ l, q.Valid) :
    requantizeList2 params params l = l := by
  induction l with
  | nil => rfl
  | cons hd tl ih =>
      rw [requantizeList2, requantize_point2_eq hd params hx hy (hval hd (by simp)),
        ih (fun q hq => hval q (by simp [hq]))]

lemma requantizeList3_id (params : QParams3d) (hx : params.scale.x ≠ 0)
    (hy : params.scale.y ≠ 0) (hz : params.scale.z ≠ 0) (l : List QPoint3d)
    (hval : ∀ q ∈ l, q.Valid) :
    requantizeList3 params params l = l := by
  induction l with
  | nil => rfl
  | cons hd tl ih =>
      rw [requantizeList3, requantize_point3_eq hd params hx hy hz (hval hd (by simp)),
        ih (fun q hq => hval q (by simp [hq]))]

/-! ### Claim theorems -/

/-- C1: for every finite `pos`, `origin` and `scale`,
`Quantization.quantize(pos, origin, scale)` returns exactly
`floor(clamp(0, 65535, 0.5 + (pos - origin) * scale))` — round-to-nearest with
the 0.5 bias followed by a saturating clamp into [0, 65535], as a total
function (no wrapping, no error). -/
theorem quantize_matches_spec_c1 (pos origin scale : ℚ) :
    Quantization.quantize pos origin scale = quantizeSpec pos origin scale := rfl

/-- C2: on the quantize-produced paths, every component of a `QPoint2d` or
`QPoint3d` is at all times a quantized value (an integer in [0, 65535]), so
the per-component setter assertions (`assert(Quantization.isQuantized(v))`)
never fire: `create`/`init` from any float point and record produce valid
points, and `copyFrom`, `clone` and `setFromScalars` (with in-range integer
arguments) preserve validity. -/
theorem qpoint_invariant_c2 :
    (∀ (pos : Point2d) (params : QParams2d), (QPoint2d.create pos params).Valid) ∧
    (∀ (self : QPoint2d) (pos : Point2d) (params : QParams2d),
      (self.init pos params).Valid) ∧
    (∀ (self src : QPoint2d), src.Valid → (self.copyFrom src).Valid) ∧
    (∀ p : QPoint2d, p.Valid → p.clone.Valid) ∧
    (∀ (self : QPoint2d) (x y : ℚ), Quantization.isQuantized x = true →
      Quantization.isQuantized y = true → (self.setFromScalars x y).Valid) ∧
    (∀ (pos : Point3d) (params : QParams3d), (QPoint3d.create pos params).Valid) ∧
    (∀ (self : QPoint3d) (pos : Point3d) (params : QParams3d),
      (self.init pos params).Valid) ∧
    (∀ (self src : QPoint3d), src.Valid → (self.copyFrom src).Valid) ∧
    (∀ p : QPoint3d, p.Valid → p.clone.Valid) ∧
    (∀ (self : QPoint3d) (x y z : ℚ), Quantization.isQuantized x = true →
      Quantization.isQuantized y = true → Quantization.isQuantized z = true →
      (self.setFromScalars x y z).Valid) := by
  refine ⟨?_, ?_, ?_, ?_, ?_, ?_, ?_, ?_, ?_, ?_⟩
  · exact fun pos params => ⟨isQuantized_quantize _ _ _, isQuantized_quantize _ _ _⟩
  · exact fun self pos params => ⟨isQuantized_quantize _ _ _, isQuantized_quantize _ _ _⟩
  · exact fun self src h => ⟨h.1, h.2⟩
  · exact fun p h => ⟨h.1, h.2⟩
  · exact fun self x y hx hy => ⟨hx, hy⟩
  · exact fun pos params =>
      ⟨isQuantized_quantize _ _ _, isQuantized_quantize _ _ _, isQuantized_quantize _ _ _⟩
  · exact fun self pos params =>
      ⟨isQuantized_quantize _ _ _, isQuantized_quantize _ _ _, isQuantized_quantize _ _ _⟩
  · exact fun self src h => ⟨h.1, h.2.1, h.2.2⟩
  · exact fun p h => ⟨h.1, h.2.1, h.2.2⟩
  · exact fun self x y z hx hy hz => ⟨hx, hy, hz⟩

/-- Witness for C2 at concrete inputs. -/
theorem qpoint_invariant_c2_witness :
    (QPoint2d.setFromScalars QPoint2d.zero 3 5).Valid ∧
      (QPoint3d.setFromScalars QPoint3d.zero 1 2 7).Valid := by
  have h := qpoint_invariant_c2
  exact ⟨h.2.2.2.2.1 QPoint2d.zero 3 5
      (by norm_num [Quantization.isQuantized, Quantization.isInRange, Quantization.rangeScale])
      (by norm_num [Quantization.isQuantized, Quantization.isInRange, Quantization.rangeScale]),
    h.2.2.2.2.2.2.2.2.2 QPoint3d.zero 1 2 7
      (by norm_num [Quantization.isQuantized, Quantization.isInRange, Quantization.rangeScale])
      (by norm_num [Quantization.isQuantized, Quantization.isInRange, Quantization.rangeScale])
      (by norm_num [Quantization.isQuantized, Quantization.isInRange,
        Quantization.rangeScale])⟩

/-- C3 counterexample: at q = 65535.5 the code's `isInRange` returns `true`
although `0 ≤ q ≤ 65535` fails, so "`true` iff `0 ≤ q ≤ 65535`" is false. -/
theorem isInRange_c3_counterexample :
    Quantization.isInRange (131071/2) = true ∧
      ¬ ((0:ℚ) ≤ 131071/2 ∧ (131071/2 : ℚ) ≤ 65535) := by
  constructor
  · norm_num [Quantization.isInRange, Quantization.rangeScale]
  · intro h
    have := h.2
    norm_num at this

/-- C3 amended: `Quantization.isInRange(q)` returns true iff
`0 ≤ q < 65536` (for integral q this coincides with `0 ≤ q ≤ 65535`). -/
theorem isInRange_c3_amended (q : ℚ) :
    Quantization.isInRange q = true ↔ 0 ≤ q ∧ q < 65536 := isInRange_iff q

/-- C4: round trip — for a record built from a non-degenerate axis
(`low < high`, hence `scale > 0`) and `pos` within `[low, high]`, the
unquantize∘quantize error is at most one grid cell, `1 / scale`. -/
theorem round_trip_bound_c4 (low high pos : ℚ) (hlh : low < high) (h1 : low ≤ pos)
    (h2 : pos ≤ high) :
    |Quantization.unquantize
        (Quantization.quantize pos low (Quantization.computeScale (high - low))) low
        (Quantization.computeScale (high - low)) - pos| ≤
      1 / Quantization.computeScale (high - low) := by
  have hext : 0 < high - low := by linarith
  have hspos := computeScale_pos _ hext
  apply round_trip_err _ _ _ hspos h1
  have hs : Quantization.computeScale (high - low) = 65535 / (high - low) := by
    unfold Quantization.computeScale
    rw [if_neg (ne_of_gt hext), Quantization.rangeScale]
  rw [hs]
  calc (pos - low) * (65535 / (high - low)) ≤ (high - low) * (65535 / (high - low)) := by
        apply mul_le_mul_of_nonneg_right (by linarith)
        positivity
  _ = 65535 := by field_simp

/-- Witness for C4: the spec's concrete 2d scenario, range [0, 10], pos 5. -/
theorem round_trip_bound_c4_witness :
    (0:ℚ) < 10 ∧
      |Quantization.unquantize
          (Quantization.quantize 5 0 (Quantization.computeScale (10 - 0))) 0
          (Quantization.computeScale (10 - 0)) - 5| ≤
        1 / Quantization.computeScale (10 - 0) :=
  ⟨by norm_num, round_trip_bound_c4 0 10 5 (by norm_num) (by norm_num) (by norm_num)⟩

/-- C5 counterexample: a list whose record has zero scales (as produced for a
degenerate range) and which holds the pushed point (5, 5): requantizing with a
record equal to the current one moves the x component from 5 to 0, a move of
5 > 1 grid cells. -/
theorem requantize_same_c5_counterexample :
    ((QPoint2dList.mk QParams2d.zero [QPoint2d.mk 5 5]).requantize
        (QPoint2dList.mk QParams2d.zero [QPoint2d.mk 5 5]).params).list.get? 0 =
      some (QPoint2d.mk 0 0) ∧
    (QPoint2dList.mk QParams2d.zero [QPoint2d.mk 5 5]).list.get? 0 =
      some (QPoint2d.mk 5 5) ∧
    ¬ (|(0:ℚ) - 5| ≤ 1) := by
  refine ⟨?_, rfl, by norm_num⟩
  norm_num [QPoint2dList.requantize, requantizeList2, QPoint2d.init, QPoint2d.unquantize,
    QPoint2d.setX, QPoint2d.setY, QPoint2d.zero, QParams2d.zero, Quantization.quantize,
    Quantization.unquantize, Quantization.rangeScale, min_def, max_def]

/-- C5 amended: when every axis scale of the list's record is nonzero (the
list's points being valid quantized points), `requantize` with a record equal
to the current one leaves every stored point exactly unchanged — in
particular each component moves by at most one — and the record is
value-equal to the original afterwards.  (The counterexample shows the
as-stated claim fails when an axis scale is zero.) -/
theorem requantize_same_c5_amended :
    (∀ (l : QPoint2dList) (p : QParams2d), p = l.params →
      l.params.scale.x ≠ 0 → l.params.scale.y ≠ 0 → (∀ q ∈ l.list, q.Valid) →
      (l.requantize p).list = l.list ∧ (l.requantize p).params = l.params) ∧
    (∀ (l : QPoint3dList) (p : QParams3d), p = l.params →
      l.params.scale.x ≠ 0 → l.params.scale.y ≠ 0 → l.params.scale.z ≠ 0 →
      (∀ q ∈ l.list, q.Valid) →
      (l.requantize p).list = l.list ∧ (l.requantize p).params = l.params) := by
  constructor
  · intro l p hp hx hy hval
    subst hp
    exact ⟨requantizeList2_id _ hx hy _ hval, qparams2_copyFrom_eq l.params l.params⟩
  · intro l p hp hx hy hz hval
    subst hp
    exact ⟨requantizeList3_id _ hx hy hz _ hval, qparams3_copyFrom_eq l.params l.params⟩

/-- Witness for C5 at concrete lists with unit scales. -/
theorem requantize_same_c5_witness :
    (((QPoint2dList.mk (QParams2d.mk (Point2d.mk 0 0) (Point2d.mk 1 1))
        [QPoint2d.mk 7 9]).requantize
          (QParams2d.mk (Point2d.mk 0 0) (Point2d.mk 1 1))).list = [QPoint2d.mk 7 9] ∧
      ((QPoint2dList.mk (QParams2d.mk (Point2d.mk 0 0) (Point2d.mk 1 1))
        [QPoint2d.mk 7 9]).requantize
          (QParams2d.mk (Point2d.mk 0 0) (Point2d.mk 1 1))).params =
        QParams2d.mk (Point2d.mk 0 0) (Point2d.mk 1 1)) ∧
    (((QPoint3dList.mk (QParams3d.mk (Point3d.mk 0 0 0) (Point3d.mk 1 1 1))
        [QPoint3d.mk 7 9 11]).requantize
          (QParams3d.mk (Point3d.mk 0 0 0) (Point3d.mk 1 1 1))).list = [QPoint3d.mk 7 9 11] ∧
      ((QPoint3dList.mk (QParams3d.mk (Point3d.mk 0 0 0) (Point3d.mk 1 1 1))
        [QPoint3d.mk 7 9 11]).requantize
          (QParams3d.mk (Point3d.mk 0 0 0) (Point3d.mk 1 1 1))).params =
        QParams3d.mk (Point3d.mk 0 0 0) (Point3d.mk 1 1 1)) := by
  constructor
  · exact requantize_same_c5_amended.1 _ _ rfl (by norm_num) (by norm_num)
      (by
        intro q hq
        simp only [List.mem_singleton] at hq
        subst hq
        constructor <;>
          norm_num [Quantization.isQuantized, Quantization.isInRange, Quantization.rangeScale])
  · exact requantize_same_c5_amended.2 _ _ rfl (by norm_num) (by norm_num) (by norm_num)
      (by
        intro q hq
        simp only [List.mem_singleton] at hq
        subst hq
        refine ⟨?_, ?_, ?_⟩ <;>
          norm_num [Quantization.isQuantized, Quantization.isInRange, Quantization.rangeScale])

/-- C6: `toTypedArray` returns an unsigned 16-bit buffer (every element is
below 2^16) of length `list.length * axisCount`, with the point components
interleaved per point in declaration order and in list insertion order:
element `i*axisCount + k` is component `k` of the `i`-th point (for valid
points the stored 16-bit value casts back to the exact component). -/
theorem toTypedArray_layout_c6 :
    (∀ l : QPoint2dList, l.toTypedArray.length = l.length * 2 ∧
      (∀ u ∈ l.toTypedArray, u < 65536) ∧
      ((∀ q ∈ l.list, q.Valid) → ∀ (i : ℕ) (p : QPoint2d), l.list.get? i = some p →
        l.toTypedArray.get? (i * 2) = some (toUint16 p.x) ∧
        l.toTypedArray.get? (i * 2 + 1) = some (toUint16 p.y) ∧
        (toUint16 p.x : ℚ) = p.x ∧ (toUint16 p.y : ℚ) = p.y)) ∧
    (∀ l : QPoint3dList, l.toTypedArray.length = l.length * 3 ∧
      (∀ u ∈ l.toTypedArray, u < 65536) ∧
      ((∀ q ∈ l.list, q.Valid) → ∀ (i : ℕ) (p : QPoint3d), l.list.get? i = some p →
        l.toTypedArray.get? (i * 3) = some (toUint16 p.x) ∧
        l.toTypedArray.get? (i * 3 + 1) = some (toUint16 p.y) ∧
        l.toTypedArray.get? (i * 3 + 2) = some (toUint16 p.z) ∧
        (toUint16 p.x : ℚ) = p.x ∧ (toUint16 p.y : ℚ) = p.y ∧
          (toUint16 p.z : ℚ) = p.z)) := by
  constructor
  · intro l
    refine ⟨typedArray2_length l.list, typedArray2_mem_lt l.list, ?_⟩
    intro hval i p hget
    have hv := hval p (List.get?_mem hget)
    obtain ⟨h1, h2⟩ := typedArray2_get l.list i p hget
    exact ⟨h1, h2, toUint16_cast_eq _ hv.1, toUint16_cast_eq _ hv.2⟩
  · intro l
    refine ⟨typedArray3_length l.list, typedArray3_mem_lt l.list, ?_⟩
    intro hval i p hget
    have hv := hval p (List.get?_mem hget)
    obtain ⟨h1, h2, h3⟩ := typedArray3_get l.list i p hget
    exact ⟨h1, h2, h3, toUint16_cast_eq _ hv.1, toUint16_cast_eq _ hv.2.1,
      toUint16_cast_eq _ hv.2.2⟩

/-- Witness for C6 at concrete one-point lists. -/
theorem toTypedArray_layout_c6_witness :
    ((QPoint2dList.mk (QParams2d.mk (Point2d.mk 0 0) (Point2d.mk 1 1))
        [QPoint2d.mk 3 4]).toTypedArray.get? (0 * 2) = some (toUint16 3) ∧
      (QPoint2dList.mk (QParams2d.mk (Point2d.mk 0 0) (Point2d.mk 1 1))
        [QPoint2d.mk 3 4]).toTypedArray.get? (0 * 2 + 1) = some (toUint16 4) ∧
      (toUint16 (3:ℚ) : ℚ) = 3 ∧ (toUint16 (4:ℚ) : ℚ) = 4) ∧
    (QPoint3dList.mk (QParams3d.mk (Point3d.mk 0 0 0) (Point3d.mk 1 1 1))
        [QPoint3d.mk 3 4 6]).toTypedArray.length = 1 * 3 := by
  constructor
  · exact (toTypedArray_layout_c6.1
      (QPoint2dList.mk (QParams2d.mk (Point2d.mk 0 0) (Point2d.mk 1 1))
        [QPoint2d.mk 3 4])).2.2
      (by
        intro q hq
        simp only [List.mem_singleton] at hq
        subst hq
        constructor <;>
          norm_num [Quantization.isQuantized, Quantization.isInRange, Quantization.rangeScale])
      0 (QPoint2d.mk 3 4) rfl
  · exact (toTypedArray_layout_c6.2
      (QPoint3dList.mk (QParams3d.mk (Point3d.mk 0 0 0) (Point3d.mk 1 1 1))
        [QPoint3d.mk 3 4 6])).1

/-- C7 counterexample: the record built from the zero-extent range [5, 5] has
scale 0, and quantizing pos = 10 (above the range high 5) yields 0, not
65535 — so the as-stated clamp law fails for zero-extent ranges. -/
theorem clamp_law_c7_counterexample :
    (5:ℚ) < 10 ∧
      Quantization.quantize 10 5 (Quantization.computeScale (5 - 5)) = 0 ∧
      Quantization.quantize 10 5 (Quantization.computeScale (5 - 5)) ≠ 65535 := by
  norm_num [Quantization.quantize, Quantization.computeScale, Quantization.rangeScale,
    min_def, max_def]

/-- C7 amended: for a record built from a range (`low ≤ high`), quantizing a
pos below the range low returns 0; quantizing a pos above the range high
returns 65535 provided the range has positive extent (`low < high`, i.e.
scale > 0).  (The counterexample shows the high side fails at zero extent.) -/
theorem clamp_law_c7_amended (low high pos : ℚ) (hlh : low ≤ high) :
    (pos < low → Quantization.quantize pos low (Quantization.computeScale (high - low)) = 0) ∧
    (low < high → high < pos →
      Quantization.quantize pos low (Quantization.computeScale (high - low)) = 65535) :=
  ⟨fun hp => quantize_below low high pos hlh hp,
   fun hlh2 hp => quantize_above low high pos hlh2 hp⟩

/-- Witness for C7: the spec's concrete clamp scenario, range [0, 100],
pos = -50 and pos = 150. -/
theorem clamp_law_c7_witness :
    Quantization.quantize (-50) 0 (Quantization.computeScale (100 - 0)) = 0 ∧
      Quantization.quantize 150 0 (Quantization.computeScale (100 - 0)) = 65535 :=
  ⟨(clamp_law_c7_amended 0 100 (-50) (by norm_num)).1 (by norm_num),
   (clamp_law_c7_amended 0 100 150 (by norm_num)).2 (by norm_num) (by norm_num)⟩

/-- C8: a zero-extent axis yields scale 0 from `computeScale`, and
`unquantize` with scale 0 returns the origin for every stored value. -/
theorem degenerate_axis_c8 (origin q : ℚ) :
    Quantization.computeScale 0 = 0 ∧
      Quantization.unquantize q origin (Quantization.computeScale 0) = origin := by
  constructor
  · simp [Quantization.computeScale]
  · simp [Quantization.unquantize, Quantization.computeScale]

/-- C9: for any index at or past the list length, `unquantize` (with the
assertion compiled out) returns the supplied `out` point unchanged — or a
fresh zero point when none is supplied — and leaves the list unchanged. -/
theorem oob_unquantize_c9 :
    (∀ (l : QPoint2dList) (i : ℕ) (out : Option Point2d), l.length ≤ i →
      QPoint2dList.unquantize l i out = (out.getD (Point2d.mk 0 0), l)) ∧
    (∀ (l : QPoint3dList) (i : ℕ) (out : Option Point3d), l.length ≤ i →
      QPoint3dList.unquantize l i out = (out.getD (Point3d.mk 0 0 0), l)) := by
  constructor
  · intro l i out h
    unfold QPoint2dList.unquantize
    have h2 : ¬ i < l.list.length := not_lt.mpr h
    rw [dif_neg h2]
  · intro l i out h
    unfold QPoint3dList.unquantize
    have h2 : ¬ i < l.list.length := not_lt.mpr h
    rw [dif_neg h2]

/-- Witness for C9: empty lists, index 0, both with and without `out`. -/
theorem oob_unquantize_c9_witness :
    QPoint2dList.unquantize (QPoint2dList.mk QParams2d.zero []) 0 none =
      ((none : Option Point2d).getD (Point2d.mk 0 0), QPoint2dList.mk QParams2d.zero []) ∧
    QPoint3dList.unquantize (QPoint3dList.mk QParams3d.zero []) 0 (some (Point3d.mk 1 2 3)) =
      ((some (Point3d.mk 1 2 3)).getD (Point3d.mk 0 0 0),
        QPoint3dList.mk QParams3d.zero []) :=
  ⟨oob_unquantize_c9.1 (QPoint2dList.mk QParams2d.zero []) 0 none (Nat.le_refl 0),
   oob_unquantize_c9.2 (QPoint3dList.mk QParams3d.zero []) 0 (some (Point3d.mk 1 2 3))
     (Nat.le_refl 0)⟩

/-- C10: `requantize` preserves the list length, and slot `i` of the result is
exactly the in-place replacement of slot `i` of the original (each old point
unquantized under the old record and re-quantized under the new one) — points
are never added, removed or reordered. -/
theorem requantize_frame_c10 :
    (∀ (l : QPoint2dList) (p : QParams2d),
      (l.requantize p).length = l.length ∧
      ∀ i : ℕ, (l.requantize p).list.get? i =
        (l.list.get? i).map (fun q => QPoint2d.init q (q.unquantize l.params none) p)) ∧
    (∀ (l : QPoint3dList) (p : QParams3d),
      (l.requantize p).length = l.length ∧
      ∀ i : ℕ, (l.requantize p).list.get? i =
        (l.list.get? i).map (fun q => QPoint3d.init q (q.unquantize l.params none) p)) := by
  constructor
  · exact fun l p =>
      ⟨requantizeList2_length p l.params l.list,
       fun i => requantizeList2_get p l.params l.list i⟩
  · exact fun l p =>
      ⟨requantizeList3_length p l.params l.list,
       fun i => requantizeList3_get p l.params l.list i⟩

